import Mathlib

/-!
Verification of the Contact Discovery & Outreach Eligibility Engine of
`src/music_outreach.py` (NullRecords repository).

The Python source is shallowly embedded:

* ISO-8601 timestamp strings are modelled as integer timestamps (`Int`,
  seconds); the source only ever compares them, and comparison of
  well-formed ISO-8601 strings agrees with chronological order.
  `timedelta(days = d)` becomes `d * 86400`.
* Python `float` scores (confidence scores, distribution fractions) are
  modelled as exact rationals (`Rat`); every literal in the source is a
  short decimal.
* Python truthiness of an optional string (`if contact.email:` is false for
  both `None` and `""`) is modelled by `truthy`.
* `str.lower()` is modelled by `pyLower` (per-character lowercasing, which
  is what CPython does on the ASCII data the engine handles).
* `hashlib.md5(...).hexdigest()` is modelled by a byte-for-byte MD5
  implementation on `Nat` words reduced mod 2^32 (`md5hexdigest`), applied
  to the UTF-8 bytes of the string exactly as `str.encode()` produces them.
* The external mail transport (`send_email`) is an oracle
  `sendOk : String → Bool` giving the success of sending to an address;
  the engine only branches on that boolean.
* `list.sort(key = lambda c: (c.outreach_count, -c.confidence_score))` is a
  stable sort by that key; it is modelled by `List.mergeSort` (stable) with
  the corresponding total preorder, which any stable sort determines
  uniquely.
-/

set_option maxRecDepth 100000

namespace MusicOutreach

/-! ## Python string helpers -/

/-- Substring containment on character lists: `charsContainSub pat s` is true
iff `pat` occurs contiguously in `s`. -/
def charsContainSub (pat : List Char) : List Char → Bool
  | [] => pat.isEmpty
  | c :: rest => pat.isPrefixOf (c :: rest) || charsContainSub pat rest

/-- Python `sub in s` for strings. -/
def strContains (s sub : String) : Bool := charsContainSub sub.data s.data

/-- Python `any(keyword in text for keyword in kws)`. -/
def containsAny (text : String) (kws : List String) : Bool :=
  kws.any (fun k => strContains text k)

/-- Python `str.lower()` (per-character lowercasing). -/
def pyLower (s : String) : String := String.mk (s.data.map Char.toLower)

/-- Python truthiness of an optional string: `None` and `""` are falsy. -/
def truthy : Option String → Bool
  | none => false
  | some s => !s.isEmpty

/-! ## MD5 (`hashlib.md5`), on `Nat` words mod 2^32 -/

/-- Addition of 32-bit words. -/
def wadd (a b : Nat) : Nat := (a + b) % 4294967296

/-- Bitwise complement of a 32-bit word. -/
def wnot (a : Nat) : Nat := 4294967295 - a % 4294967296

/-- Left-rotation of a 32-bit word by `s` bits. -/
def rotl (x s : Nat) : Nat :=
  ((x % 4294967296) <<< s + (x % 4294967296) >>> (32 - s)) % 4294967296

/-- MD5 sine-derived constant table `K`. -/
def md5K : List Nat :=
  [0xd76aa478, 0xe8c7b756, 0x242070db, 0xc1bdceee,
   0xf57c0faf, 0x4787c62a, 0xa8304613, 0xfd469501,
   0x698098d8, 0x8b44f7af, 0xffff5bb1, 0x895cd7be,
   0x6b901122, 0xfd987193, 0xa679438e, 0x49b40821,
   0xf61e2562, 0xc040b340, 0x265e5a51, 0xe9b6c7aa,
   0xd62f105d, 0x02441453, 0xd8a1e681, 0xe7d3fbc8,
   0x21e1cde6, 0xc33707d6, 0xf4d50d87, 0x455a14ed,
   0xa9e3e905, 0xfcefa3f8, 0x676f02d9, 0x8d2a4c8a,
   0xfffa3942, 0x8771f681, 0x6d9d6122, 0xfde5380c,
   0xa4beea44, 0x4bdecfa9, 0xf6bb4b60, 0xbebfbc70,
   0x289b7ec6, 0xeaa127fa, 0xd4ef3085, 0x04881d05,
   0xd9d4d039, 0xe6db99e5, 0x1fa27cf8, 0xc4ac5665,
   0xf4292244, 0x432aff97, 0xab9423a7, 0xfc93a039,
   0x655b59c3, 0x8f0ccc92, 0xffeff47d, 0x85845dd1,
   0x6fa87e4f, 0xfe2ce6e0, 0xa3014314, 0x4e0811a1,
   0xf7537e82, 0xbd3af235, 0x2ad7d2bb, 0xeb86d391]

/-- MD5 per-round left-rotation amounts. -/
def md5S : List Nat :=
  [7, 12, 17, 22, 7, 12, 17, 22, 7, 12, 17, 22, 7, 12, 17, 22,
   5, 9, 14, 20, 5, 9, 14, 20, 5, 9, 14, 20, 5, 9, 14, 20,
   4, 11, 16, 23, 4, 11, 16, 23, 4, 11, 16, 23, 4, 11, 16, 23,
   6, 10, 15, 21, 6, 10, 15, 21, 6, 10, 15, 21, 6, 10, 15, 21]

/-- One of the 64 MD5 rounds on state `(a, b, c, d)`, for a 16-word message
block `m`. -/
def md5round (m : List Nat) (st : Nat × Nat × Nat × Nat) (i : Nat) :
    Nat × Nat × Nat × Nat :=
  let a := st.1
  let b := st.2.1
  let c := st.2.2.1
  let d := st.2.2.2
  let fg : Nat × Nat :=
    if i < 16 then ((b &&& c) ||| (wnot b &&& d), i)
    else if i < 32 then ((d &&& b) ||| (wnot d &&& c), (5 * i + 1) % 16)
    else if i < 48 then (b ^^^ c ^^^ d, (3 * i + 5) % 16)
    else (c ^^^ (b ||| wnot d), (7 * i) % 16)
  let f := (fg.1 + a + md5K.getD i 0 + m.getD fg.2 0) % 4294967296
  (d, wadd b (rotl f (md5S.getD i 0)), b, c)

/-- MD5 compression of one 16-word block into the running state. -/
def md5block (st : Nat × Nat × Nat × Nat) (m : List Nat) :
    Nat × Nat × Nat × Nat :=
  let r := (List.range 64).foldl (md5round m) st
  (wadd st.1 r.1, wadd st.2.1 r.2.1, wadd st.2.2.1 r.2.2.1, wadd st.2.2.2 r.2.2.2)

/-- Little-endian decoding of a byte list into 32-bit words, four bytes at a
time. -/
def toWords : List Nat → List Nat
  | b0 :: b1 :: b2 :: b3 :: rest =>
      (b0 + 256 * b1 + 65536 * b2 + 16777216 * b3) :: toWords rest
  | _ => []

/-- Little-endian byte rendering of `v` on `n` bytes. -/
def leBytes : Nat → Nat → List Nat
  | 0, _ => []
  | n + 1, v => v % 256 :: leBytes n (v / 256)

/-- MD5 message padding: a `0x80` byte, zeros to 56 mod 64, then the bit
length on 8 little-endian bytes. -/
def md5padded (msg : List Nat) : List Nat :=
  let len := msg.length
  let k := (119 - len % 64) % 64
  msg ++ [0x80] ++ List.replicate k 0 ++ leBytes 8 (8 * len)

/-- Compression of all 64-byte blocks of `bytes` into the state, with an
explicit block-count fuel so the recursion is structural. -/
def md5blocks : Nat → Nat × Nat × Nat × Nat → List Nat → Nat × Nat × Nat × Nat
  | 0, st, _ => st
  | n + 1, st, bytes =>
      match bytes with
      | [] => st
      | _ => md5blocks n (md5block st (toWords (bytes.take 64))) (bytes.drop 64)

/-- Lowercase hexadecimal digit. -/
def hexDigit (n : Nat) : Char :=
  if n < 10 then Char.ofNat (48 + n) else Char.ofNat (87 + n)

/-- Hex rendering of one 32-bit word, byte by byte, little-endian (as MD5
digests are printed). -/
def wordHex (w : Nat) : List Char :=
  [hexDigit (w % 256 / 16), hexDigit (w % 16),
   hexDigit (w / 256 % 256 / 16), hexDigit (w / 256 % 16),
   hexDigit (w / 65536 % 256 / 16), hexDigit (w / 65536 % 16),
   hexDigit (w / 16777216 % 256 / 16), hexDigit (w / 16777216 % 16)]

/-- MD5 digest of a byte list, as the 32-character lowercase hex string
`hashlib.md5(bytes).hexdigest()` returns. -/
def md5bytes (msg : List Nat) : String :=
  let padded := md5padded msg
  let st := md5blocks (padded.length / 64 + 1)
    (0x67452301, 0xefcdab89, 0x98badcfe, 0x10325476) padded
  String.mk (wordHex st.1 ++ wordHex st.2.1 ++ wordHex st.2.2.1 ++ wordHex st.2.2.2)

/-- UTF-8 bytes of one character (`str.encode()` on one code point). -/
def utf8Bytes (c : Char) : List Nat :=
  let n := c.toNat
  if n < 128 then [n]
  else if n < 2048 then [192 + n / 64, 128 + n % 64]
  else if n < 65536 then [224 + n / 4096, 128 + n / 64 % 64, 128 + n % 64]
  else [240 + n / 262144, 128 + n / 4096 % 64, 128 + n / 64 % 64, 128 + n % 64]

/-- UTF-8 bytes of a string (`str.encode()`). -/
def strBytes (s : String) : List Nat := (s.data.map utf8Bytes).flatten

/-- Python `hashlib.md5(s.encode()).hexdigest()`. -/
def md5hexdigest (s : String) : String := md5bytes (strBytes s)

/-! ## The data model (`Contact`, lines 64-95 of the source) -/

/-- The `Contact` dataclass. Field names and defaults follow the source; the
timestamp fields (`contacted_date`, `last_outreach`, `discovered_date`,
`response_date`) are integer timestamps, and `confidence_score` is an exact
rational. -/
structure Contact where
  name : String
  type : String
  email : Option String := none
  twitter : Option String := none
  instagram : Option String := none
  website : Option String := none
  submission_url : Option String := none
  contact_form_url : Option String := none
  description : String := ""
  genre_focus : List String := []
  contacted_date : Option Int := none
  response_received : Bool := false
  response_date : Option Int := none
  response_content : String := ""
  status : String := "pending"
  outreach_count : Nat := 0
  last_outreach : Option Int := none
  discovered_date : Option Int := none
  source_url : Option String := none
  confidence_score : Rat := 0.5
  contact_hash : Option String := none
deriving DecidableEq

/-- The identifier hashed by `Contact.__post_init__`:
`f"{self.name}_{self.website or self.email or ''}"`. -/
def contactIdentifier (name : String) (website email : Option String) : String :=
  name ++ "_" ++
    (if truthy website then website.getD ""
     else if truthy email then email.getD "" else "")

/-- The contact fingerprint of `Contact.__post_init__`:
`hashlib.md5(identifier.lower().encode()).hexdigest()[:12]`. -/
def contactHashOf (name : String) (website email : Option String) : String :=
  (md5hexdigest (pyLower (contactIdentifier name website email))).take 12

/-- `Contact.__post_init__` (lines 89-95): fill `contact_hash` and
`discovered_date` when they are unset. -/
def postInit (now : Int) (c : Contact) : Contact :=
  let c1 :=
    if truthy c.contact_hash then c
    else { c with contact_hash := some (contactHashOf c.name c.website c.email) }
  if c1.discovered_date = none then { c1 with discovered_date := some now } else c1

/-! ## Frequency constants (lines 117-119) -/

def max_outreach_per_contact : Nat := 4

def min_outreach_interval : Int := 7

def daily_outreach_limit : Nat := 20

def secondsPerDay : Int := 86400

/-! ## Eligibility (`get_eligible_contacts`, lines 773-797) -/

/-- The first `continue` of the eligibility loop:
`if target_types and contact.type not in target_types` (an empty filter list
is falsy in Python, so it skips nothing). -/
def typeFilterSkip (target_types : Option (List String)) (c : Contact) : Bool :=
  match target_types with
  | some ts => !ts.isEmpty && !(ts.contains c.type)
  | none => false

/-- The third `continue` of the eligibility loop: skip when
`last_contact > now - timedelta(days = min_outreach_interval)`. -/
def intervalSkip (now : Int) (c : Contact) : Bool :=
  match c.last_outreach with
  | some t => decide (now - min_outreach_interval * secondsPerDay < t)
  | none => false

/-- Statuses the eligibility loop accepts
(`['pending', 'contacted', 'manual_submission_required']`). -/
def statusListOk : List String := ["pending", "contacted", "manual_submission_required"]

/-- The body of the eligibility loop: the contact survives every `continue`
and has an accepted status. -/
def eligibleContact (target_types : Option (List String)) (now : Int)
    (c : Contact) : Bool :=
  !typeFilterSkip target_types c
    && !(decide (max_outreach_per_contact ≤ c.outreach_count))
    && !intervalSkip now c
    && statusListOk.contains c.status

/-- `get_eligible_contacts`: the loop appends, in order, every contact that
survives the filters. -/
def get_eligible_contacts (contacts : List Contact) (now : Int)
    (target_types : Option (List String)) : List Contact :=
  contacts.filter (eligibleContact target_types now)

/-! ## Relevance score (`calculate_confidence_score`, lines 603-624) -/

/-- `calculate_confidence_score`: additive keyword heuristic on the
lowercased page text, clamped to `[0, 1]`. `url` is a parameter of the
source function but is unused by it. -/
def calculate_confidence_score (pageText url : String) : Rat :=
  let text := pyLower pageText
  let score : Rat := 0.5
  let score := if containsAny text ["music submission", "demo", "press kit"]
    then score + 0.3 else score
  let score := if containsAny text ["electronic", "jazz", "lofi", "experimental"]
    then score + 0.2 else score
  let score := if containsAny text ["independent", "indie", "underground"]
    then score + 0.1 else score
  let score := if strContains text "contact" then score + 0.1 else score
  let score := if containsAny text ["country", "pop", "rock", "metal"]
    then score - 0.1 else score
  let score := if text.length < 500 then score - 0.1 else score
  max 0 (min 1 score)

/-- The score as the specification words it: the clamp to `[0, 1]` of a single
sum of keyword bonuses and penalties. -/
def claimScore (pageText url : String) : Rat :=
  let text := pyLower pageText
  max 0 (min 1 (0.5
    + (if containsAny text ["music submission", "demo", "press kit"] then 0.3 else 0)
    + (if containsAny text ["electronic", "jazz", "lofi", "experimental"] then 0.2 else 0)
    + (if containsAny text ["independent", "indie", "underground"] then 0.1 else 0)
    + (if strContains text "contact" then 0.1 else 0)
    - (if containsAny text ["country", "pop", "rock", "metal"] then 0.1 else 0)
    - (if text.length < 500 then 0.1 else 0)))

/-! ## Priority order (`send_outreach_emails` line 820, `run_daily_outreach`
line 1210): `sort(key = lambda c: (c.outreach_count, -c.confidence_score))` -/

/-- The total preorder of the sort key
`(c.outreach_count, -c.confidence_score)` under ascending lexicographic
tuple comparison. -/
def priorityLe (a b : Contact) : Bool :=
  decide (a.outreach_count < b.outreach_count
    ∨ (a.outreach_count = b.outreach_count
        ∧ b.confidence_score ≤ a.confidence_score))

/-- Python `list.sort` with the priority key: the stable sort by
`priorityLe`. -/
def sortByPriority (l : List Contact) : List Contact := l.mergeSort priorityLe

/-! ## Outreach execution (`send_outreach_emails`, lines 832-868,
`dry_run = False`) -/

/-- One iteration of the send loop of `send_outreach_emails`. Returns the
(possibly updated) contact, whether the mail capability was invoked, and
whether the iteration counted as a successful outreach
(`successful_outreach += 1` runs only on a successful email send). -/
def outreachStep (sendOk : String → Bool) (now : Int) (c : Contact) :
    Contact × Bool × Bool :=
  if !truthy c.email && !truthy c.contact_form_url then
    (c, false, false)
  else if truthy c.email then
    if sendOk (c.email.getD "") then
      let c1 := { c with outreach_count := c.outreach_count + 1,
                         last_outreach := some now }
      let c2 := if c1.outreach_count = 1
        then { c1 with status := "contacted", contacted_date := some now }
        else c1
      (c2, true, true)
    else (c, true, false)
  else
    let c1 := { c with outreach_count := c.outreach_count + 1,
                       last_outreach := some now,
                       status := "manual_submission_required" }
    let c2 := if c1.contacted_date = none
      then { c1 with contacted_date := some now } else c1
    (c2, false, false)

/-- The whole send loop over the scheduled targets: each target is processed
in order and the successful sends are counted. -/
def runOutreachBatch (sendOk : String → Bool) (now : Int) :
    List Contact → List Contact × Nat
  | [] => ([], 0)
  | c :: rest =>
      let step := outreachStep sendOk now c
      let tail := runOutreachBatch sendOk now rest
      (step.1 :: tail.1, (if step.2.2 then 1 else 0) + tail.2)

/-! ## Daily automated and interactive sending (`run_daily_outreach` lines
1200-1241, `interactive_preview_and_send` lines 1106-1128) -/

/-- The prepared-email guard of `run_daily_outreach` line 1214:
`if contact.email or contact.contact_form_url`. -/
def preparedEligible (c : Contact) : Bool :=
  truthy c.email || truthy c.contact_form_url

/-- Python `int(q)` for the rational value of `max_daily * percentage`:
truncation toward zero. -/
def pyIntFloor (q : Rat) : Int := if 0 ≤ q then ⌊q⌋ else ⌈q⌉

/-- The per-type preparation of `run_daily_outreach` (lines 1205-1216): for
each `(type, fraction)` entry of the distribution, in order, take the
`int(maxDaily * fraction)` highest-priority eligible contacts of that type
and keep those with an email or a contact-form URL. -/
def dailyPrepared (contacts : List Contact) (now : Int)
    (dist : List (String × Rat)) (maxDaily : Nat) : List Contact :=
  dist.foldl (fun acc tp =>
    let type_limit := pyIntFloor ((maxDaily : Rat) * tp.2)
    if 0 < type_limit then
      acc ++ ((sortByPriority
          (get_eligible_contacts contacts now (some [tp.1]))).take
            type_limit.toNat).filter preparedEligible
    else acc) []

/-- The daily schedule as the claim words it: per-type top selections
concatenated, with no filtering on contact methods. -/
def claimDailySchedule (contacts : List Contact) (now : Int)
    (dist : List (String × Rat)) (maxDaily : Nat) : List Contact :=
  dist.foldl (fun acc tp =>
    acc ++ (sortByPriority
        (get_eligible_contacts contacts now (some [tp.1]))).take
          ⌊(maxDaily : Rat) * tp.2⌋.toNat) []

/-- The daily schedule amended: as the claim, but a selected contact is kept
only when it has an email or a contact-form URL. -/
def claimDailyScheduleAmended (contacts : List Contact) (now : Int)
    (dist : List (String × Rat)) (maxDaily : Nat) : List Contact :=
  dist.foldl (fun acc tp =>
    acc ++ ((sortByPriority
        (get_eligible_contacts contacts now (some [tp.1]))).take
          ⌊(maxDaily : Rat) * tp.2⌋.toNat).filter preparedEligible) []

/-- One iteration of the automated (`interactive = False`) send loop of
`run_daily_outreach` (lines 1229-1239). Returns the (possibly updated)
contact, whether the mail capability was invoked, and whether the send
succeeded. -/
def dailyAutoStep (sendOk : String → Bool) (now : Int) (c : Contact) :
    Contact × Bool × Bool :=
  if truthy c.email then
    if sendOk (c.email.getD "") then
      let c1 := { c with outreach_count := c.outreach_count + 1,
                         last_outreach := some now }
      let c2 := if c1.outreach_count = 1
        then { c1 with status := "contacted", contacted_date := some now }
        else c1
      (c2, true, true)
    else (c, true, false)
  else (c, false, false)

/-- One iteration of the approved-email send loop of
`interactive_preview_and_send` (lines 1106-1128): a contact without an email
address sets `success = False` and `continue`s without any state change. -/
def interactiveSendStep (sendOk : String → Bool) (now : Int) (c : Contact) :
    Contact × Bool × Bool :=
  if truthy c.email then
    if sendOk (c.email.getD "") then
      let c1 := { c with outreach_count := c.outreach_count + 1,
                         last_outreach := some now }
      let c2 := if c1.outreach_count = 1
        then { c1 with status := "contacted", contacted_date := some now }
        else c1
      (c2, true, true)
    else (c, true, false)
  else (c, false, false)

/-! ## Discovery dedup (`discover_new_sources`, lines 413-418) and the
store-growth of its callers (lines 805-812, 1188-1195) -/

/-- The dedup at the end of `discover_new_sources`: keep the candidates whose
`contact_hash` is not among the store's hashes. -/
def dedupNewContacts (contacts new_contacts : List Contact) : List Contact :=
  let existing_hashes := contacts.map (fun c => c.contact_hash)
  new_contacts.filter (fun c => !existing_hashes.contains c.contact_hash)

/-- How the callers grow the store: append every returned candidate whose
confidence score is at least `0.6`. -/
def addDiscovered (contacts new_contacts : List Contact) : List Contact :=
  contacts ++ (dedupNewContacts contacts new_contacts).filter
    (fun c => decide ((0.6 : Rat) ≤ c.confidence_score))

/-- Number of store records carrying a given fingerprint. -/
def countIdentity (h : Option String) (contacts : List Contact) : Nat :=
  (contacts.filter (fun c => c.contact_hash = h)).length

/-! ## Concrete sample contacts and texts used by the theorems -/

/-- An otherwise fully eligible contact, used against the empty type filter. -/
def contactPendingCurator : Contact :=
  { name := "CuratorX", type := "curator", email := some "demo@curatorx.example" }

/-- Boundary contact: three previous attempts. -/
def contactCount3 : Contact :=
  { name := "B3", type := "publication", email := some "b3@site.example",
    outreach_count := 3 }

/-- Boundary contact: four previous attempts (at the cap). -/
def contactCount4 : Contact :=
  { name := "B4", type := "publication", email := some "b4@site.example",
    outreach_count := 4 }

/-- Boundary contact: last contacted exactly seven days before time
`1000000`. -/
def contactLast7 : Contact :=
  { name := "L7", type := "publication", email := some "l7@site.example",
    status := "contacted", outreach_count := 1,
    last_outreach := some (1000000 - 7 * 86400) }

/-- Boundary contact: last contacted six days before time `1000000`. -/
def contactLast6 : Contact :=
  { name := "L6", type := "publication", email := some "l6@site.example",
    status := "contacted", outreach_count := 1,
    last_outreach := some (1000000 - 6 * 86400) }

/-- Scenario page text: 600 characters containing "music submission",
"electronic" and "contact", no negative keyword. -/
def scenarioText : String :=
  "music submission electronic contact " ++ String.mk (List.replicate 564 'a')

/-- Contact used to witness C5. -/
def contactFailMail : Contact :=
  { name := "MailFail", type := "publication", email := some "fail@site.example" }

/-- Contact used to witness C6 and C10: only a contact-form URL. -/
def contactFormOnly : Contact :=
  { name := "FormOnly", type := "platform",
    contact_form_url := some "https://site.example/contact" }

/-- Contact with neither an email nor a contact-form URL, pending and never
contacted. -/
def contactNoMethod : Contact :=
  { name := "NoMethod", type := "publication" }

/-- The candidate contact one page yields, fingerprinted by
`__post_init__`, as the scraper builds it: scraping the page a second time
within one run yields this same candidate again. -/
def discoveredPage : Contact :=
  postInit 100
    { name := "Indie Beats Blog", type := "publication",
      email := some "demo@indiebeats.example",
      website := some "https://indiebeats.example",
      source_url := some "https://indiebeats.example",
      confidence_score := 0.9 }

/-- Scenario contact of confidence 0.9 (never contacted). -/
def contactHighConf : Contact :=
  { name := "High", type := "publication", email := some "high@site.example",
    confidence_score := 0.9 }

/-- Scenario contact of confidence 0.5 (never contacted). -/
def contactLowConf : Contact :=
  { name := "Low", type := "publication", email := some "low@site.example",
    confidence_score := 0.5 }

/-! ## Test vectors for the MD5 embedding (RFC 1321, appendix A.5) -/

theorem md5hexdigest_empty :
    md5hexdigest "" = "d41d8cd98f00b204e9800998ecf8427e" := by decide

theorem md5hexdigest_abc :
    md5hexdigest "abc" = "900150983cd24fb0d6963f7d28e17f72" := by decide

/-! ## C1: the eligibility filter -/

/-- Eligibility exactly as claim C1 words it: the filter is unset, or the
contact's type is a member of it; fewer than `max_outreach_per_contact`
attempts; no previous outreach or at least `min_outreach_interval` days
since it; an accepted status. -/
def claimEligible (target_types : Option (List String)) (now : Int)
    (c : Contact) : Bool :=
  (match target_types with
   | none => true
   | some ts => ts.contains c.type)
  && decide (c.outreach_count < max_outreach_per_contact)
  && (match c.last_outreach with
      | none => true
      | some t => decide (min_outreach_interval * secondsPerDay ≤ now - t))
  && statusListOk.contains c.status

/-- Claim C1 amended at the type clause only: an empty filter list behaves
like an unset filter (Python truthiness of `target_types`). -/
def claimEligibleAmended (target_types : Option (List String)) (now : Int)
    (c : Contact) : Bool :=
  (match target_types with
   | none => true
   | some ts => ts.isEmpty || ts.contains c.type)
  && decide (c.outreach_count < max_outreach_per_contact)
  && (match c.last_outreach with
      | none => true
      | some t => decide (min_outreach_interval * secondsPerDay ≤ now - t))
  && statusListOk.contains c.status

lemma eligibleContact_eq_amended (target_types : Option (List String))
    (now : Int) (c : Contact) :
    eligibleContact target_types now c = claimEligibleAmended target_types now c := by
  apply Bool.coe_iff_coe.mp
  unfold eligibleContact claimEligibleAmended typeFilterSkip intervalSkip
  rcases target_types with _ | ts <;> rcases h : c.last_outreach with _ | t <;>
      simp [h, max_outreach_per_contact, min_outreach_interval, secondsPerDay] <;>
      intros <;> omega

/-- C1, counterexample: on the type filter `some []` (a set filter with no
member), `get_eligible_contacts` keeps a pending contact although its type
is a member of no set — the claimed characterization predicts the empty
output. -/
theorem C1_eligibility_counterexample :
    get_eligible_contacts [contactPendingCurator] 0 (some []) = [contactPendingCurator]
    ∧ [contactPendingCurator].filter (claimEligible (some []) 0) = [] := by
  constructor <;> rfl

/-- C1 (amended): `get_eligible_contacts` returns exactly the contacts
satisfying the four claimed conditions, with an empty type-filter list
behaving like an unset filter; a contact with `outreach_count = 4` is
excluded while `3` is included, and one last contacted exactly seven days
ago is included while six days ago is excluded. -/
theorem C1_eligibility_amended :
    (∀ (contacts : List Contact) (now : Int) (target_types : Option (List String)),
      get_eligible_contacts contacts now target_types
        = contacts.filter (claimEligibleAmended target_types now))
    ∧ get_eligible_contacts [contactCount4, contactCount3] 1000000 none
        = [contactCount3]
    ∧ get_eligible_contacts [contactLast6, contactLast7] 1000000 none
        = [contactLast7] := by
  refine ⟨fun contacts now target_types => ?_, by rfl, by rfl⟩
  unfold get_eligible_contacts
  exact List.filter_congr fun c _ => eligibleContact_eq_amended target_types now c

/-! ## C2: the relevance score -/

set_option maxHeartbeats 2000000 in
/-- C2: `calculate_confidence_score` is exactly the clamp to `[0, 1]` of the
claimed sum of keyword bonuses and penalties (a pure function of its
input), and on the 600-character scenario text it returns `1`. -/
theorem C2_confidence_score :
    (∀ pageText url, calculate_confidence_score pageText url = claimScore pageText url)
    ∧ calculate_confidence_score scenarioText "https://example.org" = 1 := by
  constructor
  · intro pageText url
    unfold calculate_confidence_score claimScore
    dsimp only
    split_ifs <;> norm_num
  · unfold calculate_confidence_score
    have h1 : containsAny (pyLower scenarioText)
        ["music submission", "demo", "press kit"] = true := by decide
    have h2 : containsAny (pyLower scenarioText)
        ["electronic", "jazz", "lofi", "experimental"] = true := by decide
    have h3 : containsAny (pyLower scenarioText)
        ["independent", "indie", "underground"] = false := by decide
    have h4 : strContains (pyLower scenarioText) "contact" = true := by decide
    have h5 : containsAny (pyLower scenarioText)
        ["country", "pop", "rock", "metal"] = false := by decide
    have h6 : ¬ ((pyLower scenarioText).length < 500) := by decide
    simp [h1, h2, h3, h4, h5, h6]
    norm_num

/-! ## C3: the priority sort -/

lemma priorityLe_trans (a b c : Contact) (h1 : priorityLe a b = true)
    (h2 : priorityLe b c = true) : priorityLe a c = true := by
  simp only [priorityLe, decide_eq_true_eq] at h1 h2 ⊢
  rcases h1 with h1 | ⟨h1e, h1r⟩ <;> rcases h2 with h2 | ⟨h2e, h2r⟩
  · exact Or.inl (h1.trans h2)
  · exact Or.inl (h2e ▸ h1)
  · exact Or.inl (h1e ▸ h2)
  · exact Or.inr ⟨h1e.trans h2e, h2r.trans h1r⟩

lemma priorityLe_total (a b : Contact) : (priorityLe a b || priorityLe b a) = true := by
  simp only [priorityLe, Bool.or_eq_true, decide_eq_true_eq]
  rcases Nat.lt_trichotomy a.outreach_count b.outreach_count with h | h | h
  · exact Or.inl (Or.inl h)
  · rcases le_total b.confidence_score a.confidence_score with hr | hr
    · exact Or.inl (Or.inr ⟨h, hr⟩)
    · exact Or.inr (Or.inr ⟨h.symm, hr⟩)
  · exact Or.inr (Or.inl h)

/-- C3: the scheduler sort is sorted by ascending `outreach_count` with
descending `confidence_score` as tie-breaker, is a permutation of its
input, is stable (two elements already in key order keep their relative
order), and is a deterministic function of its input. -/
theorem C3_priority_sort_stable_deterministic :
    (∀ l : List Contact, (sortByPriority l).Pairwise (fun a b => priorityLe a b = true))
    ∧ (∀ l : List Contact, (sortByPriority l).Perm l)
    ∧ (∀ (l : List Contact) (a b : Contact), priorityLe a b = true →
        [a, b].Sublist l → [a, b].Sublist (sortByPriority l))
    ∧ (∀ l₁ l₂ : List Contact, l₁ = l₂ → sortByPriority l₁ = sortByPriority l₂) := by
  refine ⟨fun l => ?_, fun l => ?_, fun l a b hle hsub => ?_, fun l₁ l₂ h => h ▸ rfl⟩
  · exact List.sorted_mergeSort priorityLe_trans priorityLe_total l
  · exact List.mergeSort_perm l priorityLe
  · exact List.sublist_mergeSort priorityLe_trans priorityLe_total
      (List.pairwise_pair.mpr hle) hsub

/-! ## C5, C6, C9, C10: the send loops -/

/-- C5: in the send loop, a contact with an email address whose send fails
is returned entirely unchanged, and the loop goes on to the remaining
scheduled contacts (the tail is processed exactly as it would be alone, and
the failed send adds nothing to the success count). -/
theorem C5_failed_send_frame (sendOk : String → Bool) (now : Int) (c : Contact)
    (hmail : truthy c.email = true) (hfail : sendOk (c.email.getD "") = false) :
    (outreachStep sendOk now c).1 = c
    ∧ (∀ rest : List Contact,
        (runOutreachBatch sendOk now (c :: rest)).1
          = c :: (runOutreachBatch sendOk now rest).1
        ∧ (runOutreachBatch sendOk now (c :: rest)).2
          = (runOutreachBatch sendOk now rest).2) := by
  have hstep : outreachStep sendOk now c = (c, true, false) := by
    unfold outreachStep
    rw [hmail, hfail]
    simp
  exact ⟨by rw [hstep], fun rest => by simp [runOutreachBatch, hstep]⟩

theorem C5_failed_send_frame_witness :
    (outreachStep (fun _ => false) 0 contactFailMail).1 = contactFailMail
    ∧ (∀ rest : List Contact,
        (runOutreachBatch (fun _ => false) 0 (contactFailMail :: rest)).1
          = contactFailMail :: (runOutreachBatch (fun _ => false) 0 rest).1
        ∧ (runOutreachBatch (fun _ => false) 0 (contactFailMail :: rest)).2
          = (runOutreachBatch (fun _ => false) 0 rest).2) :=
  C5_failed_send_frame (fun _ => false) 0 contactFailMail rfl rfl

/-- C6: a scheduled contact without an email address but with a contact-form
URL gets `outreach_count` incremented, `last_outreach := now`,
`status := "manual_submission_required"`, `contacted_date := now` when it was
unset, and the mail capability is not invoked for it. -/
theorem C6_form_only_manual (sendOk : String → Bool) (now : Int) (c : Contact)
    (hmail : truthy c.email = false) (hform : truthy c.contact_form_url = true) :
    (outreachStep sendOk now c).1
      = { c with outreach_count := c.outreach_count + 1,
                 last_outreach := some now,
                 status := "manual_submission_required",
                 contacted_date := if c.contacted_date = none then some now
                   else c.contacted_date }
    ∧ (outreachStep sendOk now c).2.1 = false := by
  unfold outreachStep
  rw [hmail, hform]
  by_cases hcd : c.contacted_date = none <;> simp [hcd]

theorem C6_form_only_manual_witness :
    (outreachStep (fun _ => true) 5 contactFormOnly).1
      = { contactFormOnly with
            outreach_count := contactFormOnly.outreach_count + 1,
            last_outreach := some 5,
            status := "manual_submission_required",
            contacted_date := if contactFormOnly.contacted_date = none then some 5
              else contactFormOnly.contacted_date }
    ∧ (outreachStep (fun _ => true) 5 contactFormOnly).2.1 = false :=
  C6_form_only_manual (fun _ => true) 5 contactFormOnly rfl rfl

/-- C9, counterexample: a pending contact with neither an email nor a
contact-form URL is returned by the eligibility computation. -/
theorem C9_eligibility_counterexample :
    contactNoMethod.email = none
    ∧ contactNoMethod.contact_form_url = none
    ∧ get_eligible_contacts [contactNoMethod] 0 none = [contactNoMethod] :=
  ⟨rfl, rfl, rfl⟩

/-- C9 (amended): a contact with neither contact method can appear in the
eligibility computation's output, but the send loop skips it without any
state change, without invoking the mail capability and without counting an
outreach. -/
theorem C9_no_method_never_contacted (sendOk : String → Bool) (now : Int)
    (c : Contact) (hmail : truthy c.email = false)
    (hform : truthy c.contact_form_url = false) :
    outreachStep sendOk now c = (c, false, false) := by
  unfold outreachStep
  rw [hmail, hform]
  simp

theorem C9_no_method_never_contacted_witness :
    outreachStep (fun _ => true) 0 contactNoMethod = (contactNoMethod, false, false) :=
  C9_no_method_never_contacted (fun _ => true) 0 contactNoMethod rfl rfl

/-- C10: in the automated daily path and in the interactive approval path, a
prepared contact without an email address is never sent and never changed
(no field of it is mutated and the mail capability is not invoked), even
though a form-only contact does pass the prepared-email guard. -/
theorem C10_no_email_never_mutated (sendOk : String → Bool) (now : Int)
    (c : Contact) (hmail : c.email = none) :
    dailyAutoStep sendOk now c = (c, false, false)
    ∧ interactiveSendStep sendOk now c = (c, false, false)
    ∧ (truthy c.contact_form_url = true → preparedEligible c = true) := by
  have h : truthy c.email = false := by rw [hmail]; rfl
  refine ⟨?_, ?_, fun hf => ?_⟩
  · unfold dailyAutoStep
    rw [h]
    simp
  · unfold interactiveSendStep
    rw [h]
    simp
  · unfold preparedEligible
    rw [h, hf]
    rfl

theorem C10_no_email_never_mutated_witness :
    dailyAutoStep (fun _ => true) 3 contactFormOnly = (contactFormOnly, false, false)
    ∧ interactiveSendStep (fun _ => true) 3 contactFormOnly
        = (contactFormOnly, false, false)
    ∧ (truthy contactFormOnly.contact_form_url = true
        → preparedEligible contactFormOnly = true) :=
  C10_no_email_never_mutated (fun _ => true) 3 contactFormOnly rfl

/-! ## C7: the contact fingerprint -/

lemma pyLower_append (a b : String) : pyLower (a ++ b) = pyLower a ++ pyLower b := by
  cases a with
  | mk la =>
    cases b with
    | mk lb =>
      show String.mk ((la ++ lb).map Char.toLower)
        = String.mk (la.map Char.toLower) ++ String.mk (lb.map Char.toLower)
      rw [List.map_append]
      rfl

lemma contactIdentifier_of_website (n w : String) (e : Option String)
    (hw : w ≠ "") : contactIdentifier n (some w) e = n ++ "_" ++ w := by
  unfold contactIdentifier
  have ht : truthy (some w) = true := by
    unfold truthy
    cases heq : w.isEmpty
    · simp [heq]
    · exact absurd ((String.isEmpty_iff w).mp heq) hw
  rw [ht]
  simp

/-- C7: the fingerprint depends only on the lowercasing of
`name ++ "_" ++ (website or email or "")` (so it is a deterministic function
of those three fields); two contacts whose name and website differ only in
letter case get equal fingerprints; and a fingerprint, once set, is changed
neither by `__post_init__` nor by the send loop. -/
theorem C7_fingerprint_case_insensitive :
    (∀ (n : String) (wo eo : Option String) (n' : String) (wo' eo' : Option String),
        pyLower (contactIdentifier n wo eo) = pyLower (contactIdentifier n' wo' eo') →
        contactHashOf n wo eo = contactHashOf n' wo' eo')
    ∧ (∀ (n₁ n₂ w₁ w₂ : String) (e₁ e₂ : Option String), w₁ ≠ "" → w₂ ≠ "" →
        pyLower n₁ = pyLower n₂ → pyLower w₁ = pyLower w₂ →
        contactHashOf n₁ (some w₁) e₁ = contactHashOf n₂ (some w₂) e₂)
    ∧ (∀ (now : Int) (c : Contact), truthy c.contact_hash = true →
        (postInit now c).contact_hash = c.contact_hash)
    ∧ (∀ (sendOk : String → Bool) (now : Int) (c : Contact),
        ((outreachStep sendOk now c).1).contact_hash = c.contact_hash) := by
  have hdep : ∀ (n : String) (wo eo : Option String) (n' : String)
      (wo' eo' : Option String),
      pyLower (contactIdentifier n wo eo) = pyLower (contactIdentifier n' wo' eo') →
      contactHashOf n wo eo = contactHashOf n' wo' eo' := by
    intro n wo eo n' wo' eo' h
    unfold contactHashOf
    rw [h]
  refine ⟨hdep, fun n₁ n₂ w₁ w₂ e₁ e₂ hw₁ hw₂ hn hw => ?_, ?_, ?_⟩
  · apply hdep
    rw [contactIdentifier_of_website n₁ w₁ e₁ hw₁,
        contactIdentifier_of_website n₂ w₂ e₂ hw₂,
        pyLower_append, pyLower_append, pyLower_append, pyLower_append, hn, hw]
  · intro now c h
    unfold postInit
    rw [h]
    by_cases hd : c.discovered_date = none <;> simp [hd]
  · intro sendOk now c
    unfold outreachStep
    dsimp only
    split_ifs <;> rfl

/-! ## C8: discovery deduplication -/

/-- C8, counterexample: a discovery run that encountered the same page twice
returns the candidate twice — the dedup only filters against the store — so
adding the run's output to an empty store leaves two records with that
page's fingerprint. -/
theorem C8_dedup_counterexample :
    countIdentity discoveredPage.contact_hash
      (addDiscovered [] [discoveredPage, discoveredPage]) = 2 := by
  have hproj : discoveredPage.confidence_score = 0.9 := rfl
  have hc : decide ((0.6 : Rat) ≤ discoveredPage.confidence_score) = true := by
    rw [decide_eq_true_eq, hproj]
    norm_num
  unfold addDiscovered dedupNewContacts countIdentity
  simp [hc]

/-- C8 (amended): the dedup removes every candidate whose fingerprint is
already among the store's records, so re-discovering an already-stored page
leaves the store unchanged, and one discovered candidate grows its
identity's record count by at most one; duplicates inside a single run's
output are, however, not deduplicated against each other. -/
theorem C8_dedup_across_runs :
    (∀ (store : List Contact) (cand : Contact),
        cand.contact_hash ∈ store.map (fun c => c.contact_hash) →
        addDiscovered store [cand] = store)
    ∧ (∀ (store : List Contact) (cand : Contact),
        countIdentity cand.contact_hash (addDiscovered store [cand])
          ≤ countIdentity cand.contact_hash store + 1) := by
  constructor
  · intro store cand h
    unfold addDiscovered dedupNewContacts
    have hc : (store.map (fun c => c.contact_hash)).contains cand.contact_hash
        = true := by
      simpa using h
    simp only [List.filter_cons, List.filter_nil, hc, Bool.not_true,
      Bool.false_eq_true, if_false, List.append_nil]
  · intro store cand
    unfold addDiscovered countIdentity
    rw [List.filter_append, List.length_append]
    have hsub : List.Sublist ((dedupNewContacts store [cand]).filter
        (fun c => decide ((0.6 : Rat) ≤ c.confidence_score))) [cand] := by
      unfold dedupNewContacts
      exact (List.filter_sublist _).trans (List.filter_sublist _)
    have hlen : (((dedupNewContacts store [cand]).filter
        (fun c => decide ((0.6 : Rat) ≤ c.confidence_score))).filter
          (fun c => decide (c.contact_hash = cand.contact_hash))).length ≤ 1 := by
      have h2 : List.Sublist (((dedupNewContacts store [cand]).filter
          (fun c => decide ((0.6 : Rat) ≤ c.confidence_score))).filter
            (fun c => decide (c.contact_hash = cand.contact_hash))) [cand] :=
        (List.filter_sublist _).trans hsub
      simpa using h2.length_le
    omega

/-! ## C4: the distribution-driven daily schedule -/

lemma sortByPriority_pair_of_not_le (a b : Contact) (h : priorityLe a b = false) :
    sortByPriority [a, b] = [b, a] := by
  obtain ⟨l₁, l₂, h1, h2, h3⟩ :=
    List.mergeSort_cons priorityLe_trans priorityLe_total a [b]
  rw [List.mergeSort_singleton] at h2
  unfold sortByPriority
  rcases l₁ with _ | ⟨x, l₁'⟩
  · exfalso
    have hp := List.sorted_mergeSort priorityLe_trans priorityLe_total (l := [a, b])
    simp only [List.nil_append] at h1
    obtain rfl : l₂ = [b] := by simpa using h2.symm
    rw [h1] at hp
    rw [List.pairwise_pair.mp hp] at h
    exact Bool.true_eq_false.mp h
  · have hx : b = x ∧ l₁' = [] ∧ l₂ = [] := by
      have h2' : x :: (l₁' ++ l₂) = [b] := by simpa using h2.symm
      simp only [List.cons.injEq] at h2'
      exact ⟨h2'.1.symm, List.append_eq_nil.mp h2'.2 |>.1,
        List.append_eq_nil.mp h2'.2 |>.2⟩
    obtain ⟨rfl, rfl, rfl⟩ := hx
    simpa using h1

lemma mem_foldl_append {β : Type} (f : β → List Contact) (l : List β)
    (acc : List Contact) (c : Contact)
    (h : c ∈ l.foldl (fun acc tp => acc ++ f tp) acc) :
    c ∈ acc ∨ ∃ tp ∈ l, c ∈ f tp := by
  induction l generalizing acc with
  | nil => exact Or.inl h
  | cons hd tl ih =>
    rcases ih (acc ++ f hd) h with hmem | ⟨tp, htp, hc⟩
    · rcases List.mem_append.mp hmem with h1 | h2
      · exact Or.inl h1
      · exact Or.inr ⟨hd, List.mem_cons_self hd tl, h2⟩
    · exact Or.inr ⟨tp, List.mem_cons_of_mem hd htp, hc⟩

lemma type_eq_of_eligible (t : String) (now : Int) (c : Contact)
    (h : eligibleContact (some [t]) now c = true) : c.type = t := by
  unfold eligibleContact typeFilterSkip at h
  simp only [Bool.and_eq_true, Bool.not_eq_true'] at h
  have h1 := h.1.1.1
  simp at h1
  exact h1

lemma dailyPrepared_eq_amended (contacts : List Contact) (now : Int)
    (dist : List (String × Rat)) (maxDaily : Nat) :
    dailyPrepared contacts now dist maxDaily
      = claimDailyScheduleAmended contacts now dist maxDaily := by
  unfold dailyPrepared claimDailyScheduleAmended
  apply List.foldl_ext
  intro acc tp _
  dsimp only
  unfold pyIntFloor
  by_cases hq : (0 : Rat) ≤ (maxDaily : Rat) * tp.2
  · rw [if_pos hq]
    by_cases hpos : 0 < ⌊(maxDaily : Rat) * tp.2⌋
    · rw [if_pos hpos]
    · rw [if_neg hpos]
      have h0 : ⌊(maxDaily : Rat) * tp.2⌋.toNat = 0 := by omega
      rw [h0]
      simp
  · rw [if_neg hq]
    have hneg : (maxDaily : Rat) * tp.2 < 0 := lt_of_not_le hq
    have hfl : ⌊(maxDaily : Rat) * tp.2⌋ < 0 := by
      rw [Int.floor_lt]
      exact_mod_cast hneg
    have hcl : ⌈(maxDaily : Rat) * tp.2⌉ ≤ 0 := by
      rw [show (0 : Int) = ((0 : Int) : Int) from rfl, Int.ceil_le]
      exact_mod_cast hneg.le
    rw [if_neg (by omega : ¬ (0 : Int) < ⌈(maxDaily : Rat) * tp.2⌉)]
    have h0 : ⌊(maxDaily : Rat) * tp.2⌋.toNat = 0 := by omega
    rw [h0]
    simp

/-- C4, counterexample: a type-matching, fully eligible contact with neither
an email nor a contact-form URL is selected by the claimed per-type formula,
but the daily preparation of the source drops it. -/
theorem C4_distribution_counterexample :
    dailyPrepared [contactNoMethod] 0 [("publication", 1)] 1 = []
    ∧ claimDailySchedule [contactNoMethod] 0 [("publication", 1)] 1
        = [contactNoMethod] := by
  have hq : (0 : Rat) ≤ ((1 : Nat) : Rat) * (1 : Rat) := by norm_num
  have hfl : ⌊((1 : Nat) : Rat) * (1 : Rat)⌋ = 1 := by norm_num
  have helig : get_eligible_contacts [contactNoMethod] 0 (some ["publication"])
      = [contactNoMethod] := rfl
  have hprep : preparedEligible contactNoMethod = false := rfl
  constructor
  · unfold dailyPrepared pyIntFloor
    simp only [List.foldl_cons, List.foldl_nil]
    rw [if_pos hq, hfl]
    simp [helig, sortByPriority, List.mergeSort_singleton, hprep]
  · unfold claimDailySchedule
    simp only [List.foldl_cons, List.foldl_nil]
    rw [hfl]
    simp [helig, sortByPriority, List.mergeSort_singleton]

/-- C4 (amended): the daily preparation equals the claimed per-type formula
with one more filter — of the `⌊dailyCap * fraction⌋` top-ranked eligible
contacts of each type, only those having an email or a contact-form URL are
kept; a contact whose type is absent from the distribution is never
scheduled; and of two same-type never-contacted contacts with confidences
0.9 and 0.5 under `dailyCap = 1` and distribution `{type: 1}`, the
0.9-confidence one is selected. -/
theorem C4_distribution_amended :
    (∀ (contacts : List Contact) (now : Int) (dist : List (String × Rat))
        (maxDaily : Nat),
      dailyPrepared contacts now dist maxDaily
        = claimDailyScheduleAmended contacts now dist maxDaily)
    ∧ (∀ (contacts : List Contact) (now : Int) (dist : List (String × Rat))
        (maxDaily : Nat) (c : Contact),
      c ∈ dailyPrepared contacts now dist maxDaily →
        c.type ∈ dist.map Prod.fst)
    ∧ dailyPrepared [contactLowConf, contactHighConf] 0 [("publication", 1)] 1
        = [contactHighConf] := by
  refine ⟨dailyPrepared_eq_amended, ?_, ?_⟩
  · intro contacts now dist maxDaily c h
    rw [dailyPrepared_eq_amended] at h
    unfold claimDailyScheduleAmended at h
    rcases mem_foldl_append _ dist [] c h with hacc | ⟨tp, htp, hc⟩
    · cases hacc
    · have hc2 := List.mem_of_mem_take (List.mem_filter.mp hc).1
      have hc3 := List.mem_mergeSort.mp hc2
      have hc4 := List.mem_filter.mp hc3
      have := type_eq_of_eligible tp.1 now c hc4.2
      exact this ▸ List.mem_map.mpr ⟨tp, htp, rfl⟩
  · have hq : (0 : Rat) ≤ ((1 : Nat) : Rat) * (1 : Rat) := by norm_num
    have hfl : ⌊((1 : Nat) : Rat) * (1 : Rat)⌋ = 1 := by norm_num
    have helig : get_eligible_contacts [contactLowConf, contactHighConf] 0
        (some ["publication"]) = [contactLowConf, contactHighConf] := rfl
    have hle : priorityLe contactLowConf contactHighConf = false := by
      unfold priorityLe contactLowConf contactHighConf
      simp only [decide_eq_false_iff_not]
      rintro (h | ⟨-, h⟩)
      · exact absurd h (by norm_num)
      · norm_num at h
    have hsort : sortByPriority [contactLowConf, contactHighConf]
        = [contactHighConf, contactLowConf] :=
      sortByPriority_pair_of_not_le _ _ hle
    have hprep : preparedEligible contactHighConf = true := rfl
    unfold dailyPrepared pyIntFloor
    simp only [List.foldl_cons, List.foldl_nil]
    rw [if_pos hq, hfl]
    rw [helig, hsort]
    simp [hprep]

end MusicOutreach
